import Mathlib

/-!
# Verification of the exodia-dao-bot epoch-aware scheduled-action engine

Shallow embedding of the bot's core logic (the `timer.on('tick')` handler of
`index.ts` and the `Tools` class of `tools.ts`) together with proofs of the
specification's claims about it.

Modelling conventions:
* JavaScript `Map<number, number>` (the `epochs` idempotency ledger) is
  modelled as an insertion-ordered association list `List (Nat × Nat)`;
  `Map.has` / `Map.set` become `epochsHas` / `epochsSet`.
* `BigNumber` amounts (raw gwei integers) are modelled as `Nat`; the
  `parseFloat(ethers.utils.formatUnits(x, 'gwei'))` display conversion is the
  exact rational division by `10 ^ 9` (JS floating point idealised as `ℚ`).
* `Math.pow` in `compoundRate` is modelled over `ℚ` with natural exponents
  (the day horizons used by the program are the naturals 1,4,5,7,30,365).
* Remote calls that may throw (`redeemAll`, per-bond `redeem`) are modelled
  as `Except Unit` valued oracle fields of an environment record; a thrown
  exception is `Except.error ()`.
* The `Metronome` timer's `toggle` is a boolean flip of the `running` flag.
-/

namespace ExodiaBot

/-- An `ethers.ContractReceipt`, restricted to the fields the bot reads. -/
structure Receipt where
  blockNumber : Nat
  transactionHash : String
  deriving Repr, DecidableEq

/-- One entry of the `Bonds` map (`tools.ts` line 261): name, the bond
contract (of which the bot only calls `pendingPayoutFor`), and the
`redeemHelper` flag (true when the bond participates in the bulk redeem). -/
structure BondData where
  name : String
  pendingPayoutFor : String → Nat
  redeemHelper : Bool

/-- `Bonds = Map<string, {name, bond, redeemHelper}>`, insertion ordered. -/
abbrev Bonds := List (String × BondData)

/-- `Tools.checkBonds` (`tools.ts` lines 379-410): folds over the bonds map,
skipping non-`redeemHelper` bonds when `ignoreAdditional` is set, summing
`pendingPayoutFor(myStakingWallet)` into a `BigNumber`, and returns
`parseFloat(ethers.utils.formatUnits(result, 'gwei'))`, i.e. the sum
divided by `10 ^ 9`. -/
def checkBonds (bonds : Bonds) (myStakingWallet : String) (ignoreAdditional : Bool) : ℚ :=
  let result : Nat := bonds.foldl
    (fun acc elem =>
      if ignoreAdditional && !elem.2.redeemHelper then acc
      else acc + elem.2.pendingPayoutFor myStakingWallet)
    0
  (result : ℚ) / 1000000000

/-- The raw `BigNumber` accumulator of `Tools.checkBonds` before the gwei
display conversion. -/
def checkBondsSum (bonds : Bonds) (myStakingWallet : String) (ignoreAdditional : Bool) : Nat :=
  bonds.foldl
    (fun acc elem =>
      if ignoreAdditional && !elem.2.redeemHelper then acc
      else acc + elem.2.pendingPayoutFor myStakingWallet)
    0

/-- `Tools.compoundRate` (`tools.ts` lines 412-414):
`Math.pow(1 + rate, epochsPerDay * days) - 1`, over `ℚ` with natural
exponents. -/
def compoundRate (rate : ℚ) (days : Nat) (epochsPerDay : Nat) : ℚ :=
  (1 + rate) ^ (epochsPerDay * days) - 1

/-- The pair of asset symbols reported by the bond information helper for a
bond contract (`helper.symbol(contract_address)` in `Tools.getBonds`). -/
structure BondSymbols where
  symbol0 : String
  symbol1 : String
  deriving Repr, DecidableEq

/-- The vesting-term tag of `Tools.getBonds` (`tools.ts` line 345):
`(terms.vestingTerm.toNumber() === 345600) ? '(4,4)' : '(1,1)'`. -/
def bondTag (vestingTerm : Nat) : String :=
  if vestingTerm = 345600 then "(4,4)" else "(1,1)"

/-- The symbol part of the bond label (`tools.ts` line 347):
`(symbols.symbol1.length !== 0) ? symbol0 + '-' + symbol1 + ' LP' : symbol0`. -/
def bondSymbolLabel (symbols : BondSymbols) : String :=
  if symbols.symbol1.length ≠ 0 then
    symbols.symbol0 ++ "-" ++ symbols.symbol1 ++ " LP"
  else
    symbols.symbol0

/-- The full bond name (`tools.ts` line 349): `symbol + ' ' + tag`. -/
def bondName (symbols : BondSymbols) (vestingTerm : Nat) : String :=
  bondSymbolLabel symbols ++ " " ++ bondTag vestingTerm

/-- Oracle for the two transaction-submitting remote calls of
`Tools.redeemBonds`: `attemptRedeemAll` (the redeem helper's
`redeemAll(wallet, true)` awaited at 2 confirmations) and
`attemptRedeemSingle` (a single bond's `redeem(wallet, true)`), keyed by the
bond's contract address. A thrown exception is `Except.error ()`. -/
structure RedeemEnv where
  redeemAll : Except Unit Receipt
  redeemSingle : String → Except Unit Receipt

/-- The local `getBond` closure of `Tools.redeemBonds` (`tools.ts` lines
475-483): look the contract address up in the bonds map. -/
def getBond (bonds : Bonds) (contract : String) : Option BondData :=
  (bonds.find? (fun elem => elem.1 == contract)).map Prod.snd

/-- The supplemental loop of `Tools.redeemBonds` (`tools.ts` lines 509-523):
for each address of `additionalBonds`, if the bonds map resolves it and its
individual `pendingPayoutFor` is positive, issue an individual redeem and
append the receipt; a thrown redeem propagates (aborting the loop and
discarding `receipts`). -/
def redeemSupplemental (env : RedeemEnv) (myStakingWallet : String) (bonds : Bonds) :
    List String → List Receipt → Except Unit (List Receipt)
  | [], receipts => Except.ok receipts
  | bond_contract :: rest, receipts =>
    match getBond bonds bond_contract with
    | some bond =>
      if bond.pendingPayoutFor myStakingWallet > 0 then
        match env.redeemSingle bond_contract with
        | Except.ok receipt =>
          redeemSupplemental env myStakingWallet bonds rest (receipts ++ [receipt])
        | Except.error e => Except.error e
      else redeemSupplemental env myStakingWallet bonds rest receipts
    | none => redeemSupplemental env myStakingWallet bonds rest receipts

/-- `Tools.redeemBonds` (`tools.ts` lines 467-526): if the bulk-eligible
aggregate pending value (`checkBonds` with `ignoreAdditional = true`) is
positive, issue the bulk `redeemAll` call and collect its receipt; then run
the supplemental loop; any thrown step propagates out of the whole call. -/
def redeemBonds (env : RedeemEnv) (myStakingWallet : String) (bonds : Bonds)
    (additionalBonds : List String) : Except Unit (List Receipt) :=
  if checkBonds bonds myStakingWallet true > 0 then
    match env.redeemAll with
    | Except.ok receipt =>
      redeemSupplemental env myStakingWallet bonds additionalBonds [receipt]
    | Except.error e => Except.error e
  else
    redeemSupplemental env myStakingWallet bonds additionalBonds []

/-! ## The tick loop (`index.ts` lines 103-229) -/

/-- The mutable state of the watch loop: the `epochs` map
(`Map<number, number>` from epoch number to confirmation block, `index.ts`
line 104) and the Metronome timer's running flag. -/
structure LoopState where
  epochs : List (Nat × Nat)
  running : Bool
  deriving Repr, DecidableEq

/-- `epochs.has(k)`. -/
def epochsHas (epochs : List (Nat × Nat)) (k : Nat) : Bool :=
  epochs.any (fun entry => entry.1 == k)

/-- `epochs.set(k, v)`: replace the value in place when the key exists,
otherwise append the new entry (JS `Map` insertion-order semantics). -/
def epochsSet (epochs : List (Nat × Nat)) (k v : Nat) : List (Nat × Nat) :=
  if epochsHas epochs k then
    epochs.map (fun entry => if entry.1 == k then (k, v) else entry)
  else
    epochs ++ [(k, v)]

/-- Everything a single tick reads from the outside world: the loop data
(`delta` and `epochNumber` from `Tools.getLoopData`), the wallet being
watched, the per-tick bond map snapshot (with this tick's
`pendingPayoutFor` answers), the supplemental address list, and the redeem
oracles. -/
structure TickEnv where
  delta : Int
  epochNumber : Nat
  myStakingWallet : String
  bonds : Bonds
  additionalBonds : List String
  redeem : RedeemEnv

/-- `const bondPayout = await Tools.checkBonds(bonds, myStakingWallet);`
(`index.ts` line 176) — note `ignoreAdditional` defaults to `false`, so this
sums over every bond in the map, supplemental ones included. -/
def bondPayout (env : TickEnv) : ℚ :=
  checkBonds env.bonds env.myStakingWallet false

/-- The guard of `index.ts` line 207:
`info.delta <= 5 * 60 && !epochs.has(info.epochNumber) && bondPayout > 0`. -/
def triggerCond (s : LoopState) (env : TickEnv) : Bool :=
  decide (env.delta ≤ 5 * 60) &&
    !epochsHas s.epochs env.epochNumber &&
    decide (bondPayout env > 0)

/-- `timer.toggle()`. -/
def toggle (s : LoopState) : LoopState :=
  { s with running := !s.running }

/-- The receipts loop of `index.ts` lines 215-219: for each receipt,
`epochs.set(info.epochNumber, receipt.blockNumber)`. -/
def recordReceipts (epochs : List (Nat × Nat)) (epochNumber : Nat)
    (receipts : List Receipt) : List (Nat × Nat) :=
  receipts.foldl (fun m receipt => epochsSet m epochNumber receipt.blockNumber) epochs

/-- One execution of the `timer.on('tick')` handler (`index.ts` lines
206-225): when the guard holds, toggle the timer off, run
`Tools.redeemBonds`; on success record every receipt, on a thrown error the
`catch` only logs; either way toggle the timer back on. When the guard
fails the state is untouched. -/
def tick (s : LoopState) (env : TickEnv) : LoopState :=
  if triggerCond s env then
    let s1 := toggle s
    match redeemBonds env.redeem env.myStakingWallet env.bonds env.additionalBonds with
    | Except.ok receipts =>
      toggle { s1 with epochs := recordReceipts s1.epochs env.epochNumber receipts }
    | Except.error _ => toggle s1
  else s

/-- The state right after startup: empty `epochs` map, timer running. -/
def initialState : LoopState :=
  { epochs := [], running := true }

/-- Run a sequence of ticks. -/
def runTicks (s : LoopState) (envs : List TickEnv) : LoopState :=
  envs.foldl tick s

/-- The reachable states of the watch loop. -/
inductive Reachable : LoopState → Prop where
  | init : Reachable initialState
  | step (s : LoopState) (env : TickEnv) : Reachable s → Reachable (tick s env)

/-! ## Concrete sample data for witnesses and counterexamples -/

/-- A bulk-eligible bond with 1 gwei unit of pending payout. -/
def bulkBond : BondData :=
  { name := "EXOD (1,1)", pendingPayoutFor := fun _ => 1, redeemHelper := true }

/-- A supplemental (individually redeemed) bond with 5 gwei units of pending
payout. -/
def suppBond : BondData :=
  { name := "EXOD-DAI LP (4,4)", pendingPayoutFor := fun _ => 5,
    redeemHelper := false }

/-- A bonds map holding only the bulk-eligible bond. -/
def demoBonds : Bonds := [("0xbond", bulkBond)]

/-- A bonds map holding only the supplemental bond. -/
def suppBonds : Bonds := [("0xsupp", suppBond)]

/-- A bonds map holding one bulk-eligible and one supplemental bond. -/
def mixedBonds : Bonds := [("0xbond", bulkBond), ("0xsupp", suppBond)]

/-- A sample receipt for the bulk redeem. -/
def demoReceipt : Receipt := { blockNumber := 1000, transactionHash := "0xaaa" }

/-- A sample receipt for an individual redeem. -/
def receiptB : Receipt := { blockNumber := 1001, transactionHash := "0xbbb" }

/-- Oracles where the bulk redeem succeeds and every individual redeem
throws. -/
def failSingleEnv : RedeemEnv :=
  { redeemAll := Except.ok demoReceipt, redeemSingle := fun _ => Except.error () }

/-- Oracles where every redeem call succeeds. -/
def okEnv : RedeemEnv :=
  { redeemAll := Except.ok demoReceipt, redeemSingle := fun _ => Except.ok receiptB }

/-- A tick inside the trigger window for epoch 12 whose redeem succeeds with
one bulk receipt. -/
def envTrigger : TickEnv :=
  { delta := 2, epochNumber := 12, myStakingWallet := "w", bonds := demoBonds,
    additionalBonds := [], redeem := failSingleEnv }

/-- The state after one successful triggering tick from startup. -/
def stateAfterTrigger : LoopState := tick initialState envTrigger

/-- A tick inside the trigger window for epoch 7 where the only pending
value sits on a supplemental bond. -/
def envSuppOnly : TickEnv :=
  { delta := 2, epochNumber := 7, myStakingWallet := "w", bonds := suppBonds,
    additionalBonds := ["0xsupp"], redeem := okEnv }

/-- A tick inside the trigger window for epoch 12 where the bulk redeem
succeeds but the supplemental redeem throws. -/
def envMixed : TickEnv :=
  { delta := 2, epochNumber := 12, myStakingWallet := "w", bonds := mixedBonds,
    additionalBonds := ["0xsupp"], redeem := failSingleEnv }

/-- A tick inside the trigger window where the redeem procedure succeeds but
produces no receipts: the pending value sits on a supplemental bond that is
absent from the supplemental address list. -/
def envNoReceipts : TickEnv :=
  { delta := 2, epochNumber := 9, myStakingWallet := "w", bonds := suppBonds,
    additionalBonds := [], redeem := okEnv }

/-- A tick outside the trigger window (delta 301) with pending value and an
unrecorded epoch. -/
def envFarAway : TickEnv :=
  { delta := 301, epochNumber := 3, myStakingWallet := "w", bonds := demoBonds,
    additionalBonds := [], redeem := okEnv }

/-- A tick inside the trigger window with an unrecorded epoch but no bonds,
hence zero aggregate pending value. -/
def envNoPayout : TickEnv :=
  { delta := 2, epochNumber := 3, myStakingWallet := "w", bonds := [],
    additionalBonds := [], redeem := okEnv }

/-- Bonds whose raw pending payouts are 5, 0 and 3 gwei. -/
def rawBonds : Bonds :=
  [("0xa", { name := "A", pendingPayoutFor := fun _ => 5, redeemHelper := true }),
   ("0xb", { name := "B", pendingPayoutFor := fun _ => 0, redeemHelper := true }),
   ("0xc", { name := "C", pendingPayoutFor := fun _ => 3, redeemHelper := true })]

/-- Bonds whose pending payouts display as 5, 0 and 3 after the gwei
conversion. -/
def displayBonds : Bonds :=
  [("0xa", { name := "A", pendingPayoutFor := fun _ => 5000000000, redeemHelper := true }),
   ("0xb", { name := "B", pendingPayoutFor := fun _ => 0, redeemHelper := true }),
   ("0xc", { name := "C", pendingPayoutFor := fun _ => 3000000000, redeemHelper := true })]

/-! ## Ledger lemmas -/

theorem epochsHas_map_set (m : List (Nat × Nat)) (k v e : Nat) :
    epochsHas (m.map (fun entry => if entry.1 == k then (k, v) else entry)) e
      = epochsHas m e := by
  induction m with
  | nil => rfl
  | cons p t ih =>
    simp only [epochsHas, List.map_cons, List.any_cons] at ih ⊢
    rw [ih]
    by_cases hp : p.1 = k
    · subst hp; simp
    · simp [hp]

theorem epochsHas_epochsSet (m : List (Nat × Nat)) (k v e : Nat) :
    epochsHas (epochsSet m k v) e = (epochsHas m e || k == e) := by
  unfold epochsSet
  by_cases h : epochsHas m k
  · rw [if_pos h, epochsHas_map_set]
    by_cases hk : k = e
    · subst hk; simp_all
    · simp [hk]
  · rw [if_neg h]
    simp [epochsHas, List.any_append]

theorem keys_map_set (m : List (Nat × Nat)) (k v : Nat) :
    (m.map (fun entry => if entry.1 == k then (k, v) else entry)).map Prod.fst
      = m.map Prod.fst := by
  induction m with
  | nil => rfl
  | cons p t ih =>
    simp only [List.map_cons, List.cons.injEq]
    constructor
    · by_cases hp : p.1 = k
      · subst hp; simp
      · simp [hp]
    · exact ih

theorem keys_epochsSet (m : List (Nat × Nat)) (k v : Nat) :
    (epochsSet m k v).map Prod.fst =
      if epochsHas m k then m.map Prod.fst else m.map Prod.fst ++ [k] := by
  unfold epochsSet
  by_cases h : epochsHas m k
  · rw [if_pos h, if_pos h, keys_map_set]
  · rw [if_neg h, if_neg h, List.map_append]
    rfl

theorem not_mem_keys_of_not_epochsHas (m : List (Nat × Nat)) (k : Nat)
    (h : epochsHas m k = false) : k ∉ m.map Prod.fst := by
  intro hmem
  obtain ⟨p, hp, hfst⟩ := List.mem_map.mp hmem
  have : epochsHas m k = true := by
    simp only [epochsHas, List.any_eq_true]
    exact ⟨p, hp, by simp [hfst]⟩
  simp_all

theorem nodup_keys_epochsSet (m : List (Nat × Nat)) (k v : Nat)
    (h : (m.map Prod.fst).Nodup) : ((epochsSet m k v).map Prod.fst).Nodup := by
  rw [keys_epochsSet]
  by_cases hk : epochsHas m k
  · rwa [if_pos hk]
  · rw [if_neg hk]
    refine List.Nodup.append h (List.nodup_singleton k) ?_
    intro a ha hb
    have : a = k := by simpa using hb
    subst this
    exact not_mem_keys_of_not_epochsHas m a (by simpa using hk) ha

theorem epochsHas_recordReceipts (m : List (Nat × Nat)) (k e : Nat)
    (rs : List Receipt) :
    epochsHas (recordReceipts m k rs) e
      = (epochsHas m e || (k == e && !rs.isEmpty)) := by
  induction rs generalizing m with
  | nil => simp [recordReceipts]
  | cons r t ih =>
    simp only [recordReceipts, List.foldl_cons] at ih ⊢
    rw [ih, epochsHas_epochsSet]
    cases epochsHas m e <;> cases hk : (k == e) <;> cases t.isEmpty <;> rfl

theorem nodup_keys_recordReceipts (m : List (Nat × Nat)) (k : Nat)
    (rs : List Receipt) (h : (m.map Prod.fst).Nodup) :
    ((recordReceipts m k rs).map Prod.fst).Nodup := by
  induction rs generalizing m with
  | nil => exact h
  | cons r t ih =>
    simp only [recordReceipts, List.foldl_cons] at ih ⊢
    exact ih _ (nodup_keys_epochsSet m k r.blockNumber h)

/-! ## Tick-step lemmas -/

theorem tick_running (s : LoopState) (env : TickEnv) :
    (tick s env).running = s.running := by
  unfold tick
  by_cases h : triggerCond s env
  · rw [if_pos h]
    cases redeemBonds env.redeem env.myStakingWallet env.bonds env.additionalBonds <;>
      simp [toggle]
  · rw [if_neg h]

theorem epochsHas_tick_mono (s : LoopState) (env : TickEnv) (e : Nat)
    (h : epochsHas s.epochs e = true) :
    epochsHas (tick s env).epochs e = true := by
  unfold tick
  by_cases hc : triggerCond s env
  · rw [if_pos hc]
    cases redeemBonds env.redeem env.myStakingWallet env.bonds env.additionalBonds with
    | ok receipts => simp [toggle, epochsHas_recordReceipts, h]
    | error err => simpa [toggle] using h
  · rwa [if_neg hc]

theorem epochsHas_tick_cases (s : LoopState) (env : TickEnv) (e : Nat)
    (h : epochsHas (tick s env).epochs e = true) :
    epochsHas s.epochs e = true ∨
      (env.epochNumber = e ∧
        ∃ rs, redeemBonds env.redeem env.myStakingWallet env.bonds
          env.additionalBonds = Except.ok rs ∧ rs ≠ []) := by
  unfold tick at h
  by_cases hc : triggerCond s env
  · rw [if_pos hc] at h
    cases hr : redeemBonds env.redeem env.myStakingWallet env.bonds env.additionalBonds with
    | ok receipts =>
      rw [hr] at h
      simp only [toggle, epochsHas_recordReceipts] at h
      rcases Bool.or_eq_true_iff.mp h with h1 | h2
      · exact Or.inl h1
      · right
        rw [Bool.and_eq_true] at h2
        obtain ⟨h2a, h2b⟩ := h2
        have hke : env.epochNumber = e := by simpa using h2a
        refine ⟨hke, receipts, rfl, ?_⟩
        intro hnil
        subst hnil
        simp at h2b
    | error err =>
      rw [hr] at h
      exact Or.inl (by simpa [toggle] using h)
  · rw [if_neg hc] at h
    exact Or.inl h

theorem nodup_keys_tick (s : LoopState) (env : TickEnv)
    (h : (s.epochs.map Prod.fst).Nodup) :
    ((tick s env).epochs.map Prod.fst).Nodup := by
  unfold tick
  by_cases hc : triggerCond s env
  · rw [if_pos hc]
    cases redeemBonds env.redeem env.myStakingWallet env.bonds env.additionalBonds with
    | ok receipts => exact nodup_keys_recordReceipts _ _ _ h
    | error err => exact h
  · rwa [if_neg hc]

theorem reachable_nodup_keys (s : LoopState) (h : Reachable s) :
    (s.epochs.map Prod.fst).Nodup := by
  induction h with
  | init => exact List.nodup_nil
  | step s env _ ih => exact nodup_keys_tick s env ih

theorem reachable_running (s : LoopState) (h : Reachable s) :
    s.running = true := by
  induction h with
  | init => rfl
  | step s env _ ih => rw [tick_running]; exact ih

theorem triggerCond_of_has (s : LoopState) (env : TickEnv)
    (h : epochsHas s.epochs env.epochNumber = true) :
    triggerCond s env = false := by
  simp [triggerCond, h]

theorem epochsHas_runTicks_mono (s : LoopState) (envs : List TickEnv) (e : Nat)
    (h : epochsHas s.epochs e = true) :
    epochsHas (runTicks s envs).epochs e = true := by
  induction envs generalizing s with
  | nil => exact h
  | cons env t ih =>
    simp only [runTicks, List.foldl_cons] at ih ⊢
    exact ih _ (epochsHas_tick_mono s env e h)

theorem checkBonds_eq_sum (bonds : Bonds) (w : String) (flag : Bool) :
    checkBonds bonds w flag = (checkBondsSum bonds w flag : ℚ) / 1000000000 := rfl

theorem tick_epochs_of_error (s : LoopState) (env : TickEnv)
    (herr : redeemBonds env.redeem env.myStakingWallet env.bonds
      env.additionalBonds = Except.error ()) :
    (tick s env).epochs = s.epochs := by
  unfold tick
  by_cases hc : triggerCond s env
  · rw [if_pos hc, herr]
    rfl
  · rw [if_neg hc]

theorem tick_epochs_of_ok_nil (s : LoopState) (env : TickEnv)
    (hok : redeemBonds env.redeem env.myStakingWallet env.bonds
      env.additionalBonds = Except.ok []) :
    (tick s env).epochs = s.epochs := by
  unfold tick
  by_cases hc : triggerCond s env
  · rw [if_pos hc, hok]
    rfl
  · rw [if_neg hc]

theorem runTicks_has_cases (envs : List TickEnv) (s : LoopState) (e : Nat)
    (h : epochsHas (runTicks s envs).epochs e = true) :
    epochsHas s.epochs e = true ∨
      ∃ env ∈ envs, env.epochNumber = e ∧
        ∃ rs, redeemBonds env.redeem env.myStakingWallet env.bonds
          env.additionalBonds = Except.ok rs ∧ rs ≠ [] := by
  induction envs generalizing s with
  | nil => exact Or.inl h
  | cons env t ih =>
    rcases ih (tick s env) h with h1 | h2
    · rcases epochsHas_tick_cases s env e h1 with ha | hb
      · exact Or.inl ha
      · exact Or.inr ⟨env, List.mem_cons_self env t, hb⟩
    · obtain ⟨env2, hmem, rest⟩ := h2
      exact Or.inr ⟨env2, List.mem_cons_of_mem env hmem, rest⟩

/-! ## Concrete evaluation lemmas

`Rat` arithmetic does not reduce by `decide` (its normalization uses
well-founded recursion), so the concrete sample data is evaluated through
`checkBonds_eq_sum` and `norm_num`. -/

theorem checkBonds_nil_eval (w : String) (flag : Bool) : checkBonds [] w flag = 0 := by
  rw [checkBonds_eq_sum]
  norm_num
  rfl

theorem checkBonds_demo_pos (flag : Bool) : checkBonds demoBonds "w" flag > 0 := by
  rw [checkBonds_eq_sum]
  have h : checkBondsSum demoBonds "w" flag = 1 := by cases flag <;> rfl
  rw [h]
  norm_num

theorem checkBonds_supp_bulk : checkBonds suppBonds "w" true = 0 := by
  rw [checkBonds_eq_sum]
  have h : checkBondsSum suppBonds "w" true = 0 := rfl
  rw [h]
  norm_num

theorem checkBonds_supp_all_pos : checkBonds suppBonds "w" false > 0 := by
  rw [checkBonds_eq_sum]
  have h : checkBondsSum suppBonds "w" false = 5 := rfl
  rw [h]
  norm_num

theorem checkBonds_mixed_bulk_pos : checkBonds mixedBonds "w" true > 0 := by
  rw [checkBonds_eq_sum]
  have h : checkBondsSum mixedBonds "w" true = 1 := rfl
  rw [h]
  norm_num

theorem checkBonds_mixed_all_pos : checkBonds mixedBonds "w" false > 0 := by
  rw [checkBonds_eq_sum]
  have h : checkBondsSum mixedBonds "w" false = 6 := rfl
  rw [h]
  norm_num

theorem triggerCond_intro (s : LoopState) (env : TickEnv)
    (h1 : env.delta ≤ 5 * 60) (h2 : epochsHas s.epochs env.epochNumber = false)
    (h3 : bondPayout env > 0) : triggerCond s env = true := by
  unfold triggerCond
  rw [h2, decide_eq_true h1, decide_eq_true h3]
  rfl

theorem triggerCond_envTrigger : triggerCond initialState envTrigger = true :=
  triggerCond_intro _ _ (by decide) rfl (checkBonds_demo_pos false)

theorem triggerCond_envSuppOnly : triggerCond initialState envSuppOnly = true :=
  triggerCond_intro _ _ (by decide) rfl checkBonds_supp_all_pos

theorem triggerCond_envMixed : triggerCond initialState envMixed = true :=
  triggerCond_intro _ _ (by decide) rfl checkBonds_mixed_all_pos

theorem triggerCond_envNoReceipts : triggerCond initialState envNoReceipts = true :=
  triggerCond_intro _ _ (by decide) rfl checkBonds_supp_all_pos

theorem redeemBonds_envTrigger :
    redeemBonds envTrigger.redeem envTrigger.myStakingWallet envTrigger.bonds
      envTrigger.additionalBonds = Except.ok [demoReceipt] := by
  show redeemBonds failSingleEnv "w" demoBonds [] = _
  unfold redeemBonds
  rw [if_pos (checkBonds_demo_pos true)]
  rfl

theorem redeemBonds_envMixed :
    redeemBonds envMixed.redeem envMixed.myStakingWallet envMixed.bonds
      envMixed.additionalBonds = Except.error () := by
  show redeemBonds failSingleEnv "w" mixedBonds ["0xsupp"] = _
  unfold redeemBonds
  rw [if_pos checkBonds_mixed_bulk_pos]
  rfl

theorem redeemBonds_envNoReceipts :
    redeemBonds envNoReceipts.redeem envNoReceipts.myStakingWallet envNoReceipts.bonds
      envNoReceipts.additionalBonds = Except.ok [] := by
  show redeemBonds okEnv "w" suppBonds [] = _
  unfold redeemBonds
  have hng : ¬ checkBonds suppBonds "w" true > 0 := by
    rw [checkBonds_supp_bulk]
    norm_num
  rw [if_neg hng]
  rfl

theorem tick_triggered_ok (s : LoopState) (env : TickEnv) (rs : List Receipt)
    (ht : triggerCond s env = true)
    (hr : redeemBonds env.redeem env.myStakingWallet env.bonds
      env.additionalBonds = Except.ok rs) :
    tick s env =
      { epochs := recordReceipts s.epochs env.epochNumber rs,
        running := s.running } := by
  unfold tick
  rw [if_pos ht, hr]
  simp [toggle]

theorem tick_triggered_error (s : LoopState) (env : TickEnv)
    (ht : triggerCond s env = true)
    (hr : redeemBonds env.redeem env.myStakingWallet env.bonds
      env.additionalBonds = Except.error ()) :
    tick s env = s := by
  unfold tick
  rw [if_pos ht, hr]
  simp [toggle]

theorem stateAfterTrigger_eval :
    stateAfterTrigger = { epochs := [(12, 1000)], running := true } := by
  show tick initialState envTrigger = _
  rw [tick_triggered_ok initialState envTrigger [demoReceipt]
    triggerCond_envTrigger redeemBonds_envTrigger]
  rfl

/-! ## Claim theorems -/

/-- Claim C7: the value aggregation of `Tools.checkBonds` returns zero over
an empty position set; over three positions with pending values 5, 0 and 3
it returns 8, the sum of the per-position pending values. This holds both
for the raw gwei accumulator (raw payouts 5, 0, 3) and for the returned
display value (payouts displaying as 5, 0, 3 after the gwei conversion). -/
theorem claim_C7_aggregation (w : String) (flag : Bool) :
    checkBonds [] w flag = 0 ∧
    checkBondsSum [] w flag = 0 ∧
    checkBondsSum rawBonds w flag = 8 ∧
    checkBonds displayBonds w flag = 8 := by
  refine ⟨?_, rfl, ?_, ?_⟩
  · rw [checkBonds_eq_sum]
    norm_num
    rfl
  · cases flag <;> rfl
  · rw [checkBonds_eq_sum]
    have h : checkBondsSum displayBonds w flag = 8000000000 := by
      unfold checkBondsSum displayBonds
      cases flag <;> norm_num
    rw [h]
    norm_num

/-- Claim C3: on every tick the redeem-and-stake action is entered iff
`delta <= 300`, the current epoch number has no ledger entry, and the
aggregate pending bond value is positive, all at once; falsifying any
single conjunct prevents the trigger, and an untriggered tick leaves the
state untouched. -/
theorem claim_C3_trigger_iff (s : LoopState) (env : TickEnv) :
    (triggerCond s env = true ↔
      (env.delta ≤ 300 ∧ epochsHas s.epochs env.epochNumber = false ∧
        bondPayout env > 0)) ∧
    (¬ env.delta ≤ 300 → triggerCond s env = false) ∧
    (epochsHas s.epochs env.epochNumber = true → triggerCond s env = false) ∧
    (¬ bondPayout env > 0 → triggerCond s env = false) ∧
    (triggerCond s env = false → tick s env = s) := by
  have hiff : triggerCond s env = true ↔
      (env.delta ≤ 300 ∧ epochsHas s.epochs env.epochNumber = false ∧
        bondPayout env > 0) := by
    show (decide (env.delta ≤ 5 * 60) && !epochsHas s.epochs env.epochNumber &&
      decide (bondPayout env > 0)) = true ↔ _
    norm_num [Bool.and_eq_true, Bool.not_eq_true', and_assoc]
  refine ⟨hiff, ?_, ?_, ?_, ?_⟩
  · intro h
    cases hc : triggerCond s env with
    | false => rfl
    | true => exact absurd (hiff.mp hc).1 h
  · exact triggerCond_of_has s env
  · intro h
    cases hc : triggerCond s env with
    | false => rfl
    | true => exact absurd (hiff.mp hc).2.2 h
  · intro h
    simp [tick, h]

/-- Witness for claim C3: each conjunct of the trigger condition falsified
alone (delta too large; epoch already recorded; zero pending value) leaves
the trigger false, and the untriggered tick is a no-op. -/
theorem claim_C3_witness :
    triggerCond initialState envFarAway = false ∧
    triggerCond stateAfterTrigger envTrigger = false ∧
    triggerCond initialState envNoPayout = false ∧
    tick initialState envFarAway = initialState := by
  have h1 := claim_C3_trigger_iff initialState envFarAway
  have h2 := claim_C3_trigger_iff stateAfterTrigger envTrigger
  have h3 := claim_C3_trigger_iff initialState envNoPayout
  have hfar : triggerCond initialState envFarAway = false :=
    h1.2.1 (by decide)
  have hhas : epochsHas stateAfterTrigger.epochs envTrigger.epochNumber = true := by
    rw [stateAfterTrigger_eval]
    rfl
  have hzero : bondPayout envNoPayout = 0 := checkBonds_nil_eval "w" false
  have hnp : ¬ bondPayout envNoPayout > 0 := by
    rw [hzero]
    norm_num
  exact ⟨hfar, h2.2.2.1 hhas, h3.2.2.2.1 hnp, h1.2.2.2.2 hfar⟩

/-- Counterexample to claim C4: the per-tick trigger does NOT restrict the
aggregation to bulk-eligible positions. With a single supplemental position
holding pending value, the bulk-only aggregate is zero, yet the value the
trigger tests is positive and the trigger fires. -/
theorem claim_C4_counterexample :
    checkBonds suppBonds "w" true = 0 ∧
    checkBonds suppBonds "w" false > 0 ∧
    bondPayout envSuppOnly > 0 ∧
    triggerCond initialState envSuppOnly = true :=
  ⟨checkBonds_supp_bulk, checkBonds_supp_all_pos, checkBonds_supp_all_pos,
    triggerCond_envSuppOnly⟩

/-- Claim C4 amended: the pending value tested by the per-tick trigger is
`Tools.checkBonds` with `ignoreAdditional = false`, i.e. the aggregate over
ALL registered positions, supplemental ones included; it differs from the
bulk-only aggregate on a set holding a supplemental position with pending
value. -/
theorem claim_C4_amended_all_positions (s : LoopState) (env : TickEnv) :
    bondPayout env = checkBonds env.bonds env.myStakingWallet false ∧
    triggerCond s env =
      (decide (env.delta ≤ 5 * 60) && !epochsHas s.epochs env.epochNumber &&
        decide (checkBonds env.bonds env.myStakingWallet false > 0)) ∧
    ¬ checkBonds suppBonds "w" false = checkBonds suppBonds "w" true :=
  ⟨rfl, rfl, by rw [checkBonds_supp_bulk]; exact ne_of_gt checkBonds_supp_all_pos⟩

/-- Claim C8: `Tools.compoundRate rate days epochsPerDay` equals
`(1 + rate) ^ (epochsPerDay * days) - 1`; in particular it is `0` when
`rate = 0`, and for `days = 1` it is `(1 + rate) ^ epochsPerDay - 1`. -/
theorem claim_C8_compound (rate : ℚ) (days epochsPerDay : Nat) :
    compoundRate rate days epochsPerDay = (1 + rate) ^ (epochsPerDay * days) - 1 ∧
    compoundRate 0 days epochsPerDay = 0 ∧
    compoundRate rate 1 epochsPerDay = (1 + rate) ^ epochsPerDay - 1 := by
  refine ⟨rfl, ?_, ?_⟩
  · simp [compoundRate]
  · simp [compoundRate]

/-- Claim C9: bond label derivation in `Tools.getBonds`: a non-empty
`symbol1` yields the symbol part `symbol0-symbol1 LP`, an empty `symbol1`
yields `symbol0`; vesting term 345600 yields the `(4,4)` tag and any other
vesting term yields the `(1,1)` tag; the full name is the symbol part
followed by a space and the tag. -/
theorem claim_C9_labels (symbols : BondSymbols) (vestingTerm : Nat) :
    (symbols.symbol1.length ≠ 0 →
      bondSymbolLabel symbols = symbols.symbol0 ++ "-" ++ symbols.symbol1 ++ " LP") ∧
    (symbols.symbol1.length = 0 → bondSymbolLabel symbols = symbols.symbol0) ∧
    bondTag 345600 = "(4,4)" ∧
    (vestingTerm ≠ 345600 → bondTag vestingTerm = "(1,1)") ∧
    bondName symbols vestingTerm = bondSymbolLabel symbols ++ " " ++ bondTag vestingTerm := by
  refine ⟨?_, ?_, rfl, ?_, rfl⟩
  · intro h
    simp [bondSymbolLabel, h]
  · intro h
    simp [bondSymbolLabel, h]
  · intro h
    simp [bondTag, h]

/-- Witness for claim C9 at the concrete inputs of the specification: a
two-symbol position with vesting term 345600 and a one-symbol position with
vesting term 86400. -/
theorem claim_C9_witness :
    bondName { symbol0 := "EXOD", symbol1 := "DAI" } 345600 = "EXOD-DAI LP (4,4)" ∧
    bondName { symbol0 := "EXOD", symbol1 := "" } 86400 = "EXOD (1,1)" := by
  have h1 := claim_C9_labels { symbol0 := "EXOD", symbol1 := "DAI" } 345600
  have h2 := claim_C9_labels { symbol0 := "EXOD", symbol1 := "" } 86400
  constructor
  · rw [h1.2.2.2.2, h1.1 (by decide), h1.2.2.1]
    rfl
  · rw [h2.2.2.2.2, h2.2.1 rfl, h2.2.2.2.1 (by decide)]
    rfl

/-- Claim C1: in every reachable state of the tick loop, once an entry for
epoch number `e` has been recorded in the `epochs` ledger, the
redeem-and-stake action is never triggered again for `e` on any later tick
(whatever the delta and pending value of that tick), and the ledger keys
hold at most one entry per epoch number. -/
theorem claim_C1_once_per_epoch (s : LoopState) (e : Nat) (hs : Reachable s)
    (hrec : epochsHas s.epochs e = true) :
    (∀ (envs : List TickEnv) (env : TickEnv), env.epochNumber = e →
      triggerCond (runTicks s envs) env = false) ∧
    (s.epochs.map Prod.fst).Nodup := by
  constructor
  · intro envs env henv
    apply triggerCond_of_has
    rw [henv]
    exact epochsHas_runTicks_mono s envs e hrec
  · exact reachable_nodup_keys s hs

/-- Witness for claim C1 at the reachable state produced by one triggering
tick that records epoch 12: another tick for epoch 12 (still inside the
trigger window, with positive pending value) does not trigger, and the
ledger keys are duplicate-free. -/
theorem claim_C1_witness :
    triggerCond (runTicks stateAfterTrigger [envTrigger]) envTrigger = false ∧
    (stateAfterTrigger.epochs.map Prod.fst).Nodup := by
  have hrec : epochsHas stateAfterTrigger.epochs 12 = true := by
    rw [stateAfterTrigger_eval]
    rfl
  have h := claim_C1_once_per_epoch stateAfterTrigger 12
    (Reachable.step initialState envTrigger Reachable.init) hrec
  exact ⟨h.1 [envTrigger] envTrigger rfl, h.2⟩

/-- Counterexample to claim C2: a concrete invocation where the bulk redeem
succeeds (producing a receipt) and the later supplemental redeem fails, yet
the epoch is NOT marked in the ledger: the whole `redeemBonds` call throws,
the tick handler's catch skips the recording loop, and the ledger stays
empty. -/
theorem claim_C2_counterexample :
    envMixed.redeem.redeemAll = Except.ok demoReceipt ∧
    checkBonds mixedBonds "w" true > 0 ∧
    redeemBonds envMixed.redeem envMixed.myStakingWallet envMixed.bonds
      envMixed.additionalBonds = Except.error () ∧
    triggerCond initialState envMixed = true ∧
    (tick initialState envMixed).epochs = [] :=
  ⟨rfl, checkBonds_mixed_bulk_pos, redeemBonds_envMixed, triggerCond_envMixed,
    by
      rw [tick_triggered_error initialState envMixed triggerCond_envMixed
        redeemBonds_envMixed]
      rfl⟩

/-- Claim C2 amended: when any step of `Tools.redeemBonds` throws — in
particular when the bulk redeem succeeded and a later supplemental redeem
failed — the invocation propagates the error, the receipts collected so far
are discarded, the tick leaves the state unchanged, and the epoch is NOT
marked in the ledger; an epoch is marked only by an invocation that
completes without error. -/
theorem claim_C2_amended_no_mark_on_error (s : LoopState) (env : TickEnv)
    (herr : redeemBonds env.redeem env.myStakingWallet env.bonds
      env.additionalBonds = Except.error ()) :
    tick s env = s ∧ (tick s env).epochs = s.epochs := by
  have hr : tick s env = s := by
    unfold tick
    by_cases hc : triggerCond s env
    · rw [if_pos hc, herr]
      simp [toggle]
    · rw [if_neg hc]
  exact ⟨hr, by rw [hr]⟩

/-- Witness for claim C2 (amended) at the concrete counterexample tick. -/
theorem claim_C2_witness :
    tick initialState envMixed = initialState ∧
    (tick initialState envMixed).epochs = initialState.epochs :=
  claim_C2_amended_no_mark_on_error initialState envMixed redeemBonds_envMixed

/-- Claim C5: when the redeem procedure raises an uncaught error during a
tick, the ledger is left unchanged (no entry for the epoch), the scheduler
is resumed (the running flag is restored, hence true in every reachable
state), and the same epoch can trigger again on any later tick whose
conditions hold. -/
theorem claim_C5_error_retry (s : LoopState) (env : TickEnv)
    (herr : redeemBonds env.redeem env.myStakingWallet env.bonds
      env.additionalBonds = Except.error ()) :
    (tick s env).epochs = s.epochs ∧
    (tick s env).running = s.running ∧
    (Reachable s → (tick s env).running = true) ∧
    (∀ envB : TickEnv, envB.epochNumber = env.epochNumber →
      envB.delta ≤ 300 → bondPayout envB > 0 →
      epochsHas s.epochs env.epochNumber = false →
      triggerCond (tick s env) envB = true) := by
  have he : (tick s env).epochs = s.epochs := tick_epochs_of_error s env herr
  refine ⟨he, tick_running s env, ?_, ?_⟩
  · intro hs
    rw [tick_running]
    exact reachable_running s hs
  · intro envB h1 h2 h3 h4
    apply triggerCond_intro
    · omega
    · rw [he, h1]
      exact h4
    · exact h3

/-- Witness for claim C5 at the failing mixed tick: the ledger stays empty,
the timer is running again afterwards, and the very same tick environment
triggers again. -/
theorem claim_C5_witness :
    (tick initialState envMixed).epochs = initialState.epochs ∧
    (tick initialState envMixed).running = true ∧
    triggerCond (tick initialState envMixed) envMixed = true := by
  have h := claim_C5_error_retry initialState envMixed redeemBonds_envMixed
  exact ⟨h.1, h.2.2.1 Reachable.init,
    h.2.2.2 envMixed rfl (by decide) checkBonds_mixed_all_pos rfl⟩

/-- Helper for claim C6: the supplemental loop over a single resolvable
address with positive individual pending value and a succeeding individual
redeem appends exactly that receipt. -/
theorem redeemSupplemental_single (env : RedeemEnv) (w a : String)
    (bonds : Bonds) (d : BondData) (r : Receipt) (acc : List Receipt)
    (hlook : getBond bonds a = some d) (hpend : d.pendingPayoutFor w > 0)
    (hr : env.redeemSingle a = Except.ok r) :
    redeemSupplemental env w bonds [a] acc = Except.ok (acc ++ [r]) := by
  have h1 : redeemSupplemental env w bonds [a] acc =
      if d.pendingPayoutFor w > 0 then
        (match env.redeemSingle a with
         | Except.ok receipt => redeemSupplemental env w bonds [] (acc ++ [receipt])
         | Except.error e => Except.error e)
      else redeemSupplemental env w bonds [] acc := by
    unfold redeemSupplemental
    rw [hlook]
    rfl
  rw [h1, if_pos hpend, hr]
  rfl

/-- Claim C6: in `Tools.redeemBonds`, when the bulk-eligible aggregate
pending value is zero and a supplemental position has positive individual
pending value, only the individual redeem path executes — the result does
not depend on the bulk oracle at all — and the returned list holds exactly
the individual receipt; when both aggregates are positive, both paths
execute and both receipts are returned, the bulk receipt first. -/
theorem claim_C6_redeem_paths (env : RedeemEnv) (w a : String) (bonds : Bonds)
    (d : BondData) (r r1 r2 : Receipt)
    (hlook : getBond bonds a = some d)
    (hpend : d.pendingPayoutFor w > 0) :
    (checkBonds bonds w true = 0 → env.redeemSingle a = Except.ok r →
      ∀ bulkOutcome : Except Unit Receipt,
        redeemBonds { redeemAll := bulkOutcome, redeemSingle := env.redeemSingle }
          w bonds [a] = Except.ok [r]) ∧
    (checkBonds bonds w true > 0 → env.redeemAll = Except.ok r1 →
      env.redeemSingle a = Except.ok r2 →
      redeemBonds env w bonds [a] = Except.ok [r1, r2]) := by
  constructor
  · intro h0 hr bulkOutcome
    have hng : ¬ checkBonds bonds w true > 0 := by
      rw [h0]
      norm_num
    unfold redeemBonds
    rw [if_neg hng]
    exact redeemSupplemental_single _ w a bonds d r [] hlook hpend hr
  · intro hpos hall hr
    unfold redeemBonds
    rw [if_pos hpos, hall]
    exact redeemSupplemental_single env w a bonds d r2 [r1] hlook hpend hr

/-- Witness for claim C6: with the supplemental-only bond set the individual
receipt is returned even when the bulk oracle would fail (the bulk call is
never issued); with the mixed bond set both receipts come back in order. -/
theorem claim_C6_witness :
    redeemBonds { redeemAll := Except.error (), redeemSingle := okEnv.redeemSingle }
      "w" suppBonds ["0xsupp"] = Except.ok [receiptB] ∧
    redeemBonds okEnv "w" mixedBonds ["0xsupp"] =
      Except.ok [demoReceipt, receiptB] := by
  constructor
  · exact (claim_C6_redeem_paths okEnv "w" "0xsupp" suppBonds suppBond
      receiptB demoReceipt receiptB rfl (by decide)).1
      checkBonds_supp_bulk rfl (Except.error ())
  · exact (claim_C6_redeem_paths okEnv "w" "0xsupp" mixedBonds suppBond
      receiptB demoReceipt receiptB rfl (by decide)).2
      checkBonds_mixed_bulk_pos rfl rfl

/-- Claim C10: a redeem invocation that completes without error but returns
an empty receipt list writes nothing to the ledger — the trigger can fire
again for the same epoch later — and an epoch number appears in the ledger
of a state reached from startup only if some tick ran with it as the
current epoch number and its redeem returned a non-empty receipt list. -/
theorem claim_C10_receipts_gate_ledger :
    (∀ (s : LoopState) (env : TickEnv),
      redeemBonds env.redeem env.myStakingWallet env.bonds env.additionalBonds
        = Except.ok [] →
      (tick s env).epochs = s.epochs ∧
      (∀ envB : TickEnv, envB.epochNumber = env.epochNumber →
        envB.delta ≤ 300 → bondPayout envB > 0 →
        epochsHas s.epochs env.epochNumber = false →
        triggerCond (tick s env) envB = true)) ∧
    (∀ (envs : List TickEnv) (e : Nat),
      epochsHas (runTicks initialState envs).epochs e = true →
      ∃ env ∈ envs, env.epochNumber = e ∧
        ∃ rs, redeemBonds env.redeem env.myStakingWallet env.bonds
          env.additionalBonds = Except.ok rs ∧ rs ≠ []) := by
  constructor
  · intro s env hok
    have he := tick_epochs_of_ok_nil s env hok
    refine ⟨he, ?_⟩
    intro envB h1 h2 h3 h4
    apply triggerCond_intro
    · omega
    · rw [he, h1]
      exact h4
    · exact h3
  · intro envs e h
    rcases runTicks_has_cases envs initialState e h with h1 | h2
    · simp [initialState, epochsHas] at h1
    · exact h2

/-- Witness for claim C10: a triggered tick whose redeem returns no receipts
leaves the ledger empty and still retriggerable for the same epoch, while
the one-tick trace that records epoch 12 exhibits the non-empty receipt
list behind its ledger entry. -/
theorem claim_C10_witness :
    (tick initialState envNoReceipts).epochs = initialState.epochs ∧
    triggerCond (tick initialState envNoReceipts) envNoReceipts = true ∧
    ∃ env ∈ [envTrigger], env.epochNumber = 12 ∧
      ∃ rs, redeemBonds env.redeem env.myStakingWallet env.bonds
        env.additionalBonds = Except.ok rs ∧ rs ≠ [] := by
  have h := claim_C10_receipts_gate_ledger
  have h1 := h.1 initialState envNoReceipts redeemBonds_envNoReceipts
  have hhas : epochsHas (runTicks initialState [envTrigger]).epochs 12 = true := by
    show epochsHas stateAfterTrigger.epochs 12 = true
    rw [stateAfterTrigger_eval]
    rfl
  exact ⟨h1.1,
    h1.2 envNoReceipts rfl (by decide) checkBonds_supp_all_pos rfl,
    h.2 [envTrigger] 12 hhas⟩

end ExodiaBot
